import Mathlib

/-
Verification of the configuration-resolution and client-bootstrap layer of
the hosting.de infrastructure plugin (src/hostingde/provider.go).

The embedding below translates the Go source directly:
- `types.String` of the plugin framework is a three-state value
  (null / unknown / known string); `ValueString` returns the empty string
  in the null and unknown states.
- `os.Getenv` returns the empty string for an unset variable, so the
  environment is modelled as three plain strings.
- `Configure` is translated statement by statement, with the diagnostics
  collection made explicit and the structured log sink (tflog) modelled as
  a list of emitted records, with field masking applied.
-/

namespace TerraformHostingde

/-- Three-state plugin-framework string value: null (absent), unknown
(not yet computed), or a known string. -/
inductive TFString where
  | null : TFString
  | unknown : TFString
  | known : String → TFString
  deriving DecidableEq

/-- Translation of `types.String.IsNull`. -/
def TFString.isNull : TFString → Bool
  | .null => true
  | _ => false

/-- Translation of `types.String.IsUnknown`. -/
def TFString.isUnknown : TFString → Bool
  | .unknown => true
  | _ => false

/-- Translation of `types.String.ValueString`: the known value, or the empty string in the
null and unknown states. -/
def TFString.valueString : TFString → String
  | .known s => s
  | _ => ""

/-- Structure `hostingdeProviderModel`: the as-declared provider configuration. -/
structure hostingdeProviderModel where
  AccountId : TFString
  AuthToken : TFString
  BaseUrl : TFString
  deriving DecidableEq

/-- The process environment restricted to the three variables the resolver
reads: `HOSTINGDE_ACCOUNT_ID`, `HOSTINGDE_AUTH_TOKEN`, `HOSTINGDE_BASE_URL`.
`os.Getenv` yields the empty string when a variable is unset. -/
structure Env where
  accountId : String
  authToken : String
  baseUrl : String
  deriving DecidableEq

/-- Diagnostic severity. `AddAttributeError` always produces `error`. -/
inductive Severity where
  | error : Severity
  | warning : Severity
  deriving DecidableEq

/-- An attribute-scoped diagnostic record (severity, attribute path,
summary, detail). -/
structure Diagnostic where
  severity : Severity
  path : String
  summary : String
  detail : String
  deriving DecidableEq

/-- Translation of `Diagnostics.HasError`: some accumulated record has error severity. -/
def hasError (ds : List Diagnostic) : Bool :=
  ds.any (fun d => match d.severity with | .error => true | .warning => false)

/-- The diagnostic added at provider.go lines 77-83. -/
def accountIdUnknownDiag : Diagnostic :=
  { severity := .error
    path := "account_id"
    summary := "Unknown hosting.de API account ID"
    detail := "The provider cannot create the hosting.de API client as there is an unknown configuration value for the hosting.de API account ID. Either target apply the source of the value first, set the value statically in the configuration, or use the HOSTINGDE_ACCOUNT_ID environment variable." }

/-- The diagnostic added at provider.go lines 86-92. -/
def authTokenUnknownDiag : Diagnostic :=
  { severity := .error
    path := "auth_token"
    summary := "Unknown hosting.de API auth token"
    detail := "The provider cannot create the hosting.de API client as there is an unknown configuration value for the hosting.de API auth token. Either target apply the source of the value first, set the value statically in the configuration, or use the HOSTINGDE_AUTH_TOKEN environment variable." }

/-- The diagnostic added at provider.go lines 125-131. -/
def missingAuthTokenDiag : Diagnostic :=
  { severity := .error
    path := "auth_token"
    summary := "Missing hosting.de API auth token"
    detail := "The provider cannot create the hosting.de API client as there is a missing or empty value for the hosting.de API auth token. Set the auth_token value in the configuration or use the HOSTINGDE_AUTH_TOKEN environment variable. If either is already set, ensure the value is not empty." }

/-- Constant `defaultBaseURL` (provider.go line 16). -/
def defaultBaseURL : String := "https://secure.hosting.de/api/dns/v1/json"

/-- Modelled from the spec: `NewClient` lives in the API-client source file,
which is not part of the resolver source; the spec describes client
construction as infallible pure data capture of the three resolved strings. -/
structure Client where
  accountId : String
  authToken : String
  baseUrl : String
  deriving DecidableEq

/-- Modelled from the spec: `NewClient(&account_id, &auth_token, &base_url)`
captures the three resolved strings (pure data capture, no network call). -/
def NewClient (accountId authToken baseUrl : String) : Client :=
  { accountId := accountId, authToken := authToken, baseUrl := baseUrl }

/-- One record emitted to the structured log sink (tflog), after field
masking has been applied at the sink. -/
structure LogRecord where
  message : String
  fields : List (String × String)
  deriving DecidableEq

/-- The value a masked field shows in any log sink
(`tflog.MaskFieldValuesWithFieldKeys` on `hostingde_auth_token`). -/
def maskedValue : String := "***"

/-- The log fields set at provider.go lines 138-141: the resolved account id
and base URL in clear, the auth token field masked at the sink. -/
def logFields (accountId baseUrl : String) : List (String × String) :=
  [("hostingde_account_id", accountId),
   ("hostingde_auth_token", maskedValue),
   ("hostingde_base_url", baseUrl)]

/-- Literal-occurrence predicate used to state the redaction property: the
needle string occurs contiguously inside the hay string. -/
def occursIn (needle hay : String) : Prop :=
  ∃ l r : List Char, hay.data = l ++ needle.data ++ r

/-- The outcome of one `Configure` invocation: the accumulated diagnostics,
the two shared-data slots, and the records emitted to the log sink. -/
structure ConfigureResponse where
  Diagnostics : List Diagnostic
  DataSourceData : Option Client
  ResourceData : Option Client
  logs : List LogRecord
  deriving DecidableEq

/-- provider.go lines 101-107: default to `HOSTINGDE_ACCOUNT_ID`, override
with the configuration value when it is not null. -/
def resolvedAccountId (config : hostingdeProviderModel) (env : Env) : String :=
  if !config.AccountId.isNull then config.AccountId.valueString else env.accountId

/-- provider.go lines 102, 109-111: default to `HOSTINGDE_AUTH_TOKEN`,
override with the configuration value when it is not null. -/
def resolvedAuthToken (config : hostingdeProviderModel) (env : Env) : String :=
  if !config.AuthToken.isNull then config.AuthToken.valueString else env.authToken

/-- provider.go lines 103, 113-115: default to `HOSTINGDE_BASE_URL`,
override with the configuration value when it is not null. -/
def resolvedBaseUrl (config : hostingdeProviderModel) (env : Env) : String :=
  if !config.BaseUrl.isNull then config.BaseUrl.valueString else env.baseUrl

/-- provider.go lines 118-120: fall back to `defaultBaseURL` when the
resolved base URL is empty. -/
def finalBaseUrl (config : hostingdeProviderModel) (env : Env) : String :=
  if resolvedBaseUrl config env = "" then defaultBaseURL
  else resolvedBaseUrl config env

/-- The diagnostics accumulated by the unknown-value guard
(provider.go lines 76-92): account id first, then auth token. -/
def unknownDiags (config : hostingdeProviderModel) : List Diagnostic :=
  (if config.AccountId.isUnknown then [accountIdUnknownDiag] else []) ++
  (if config.AuthToken.isUnknown then [authTokenUnknownDiag] else [])

/-- The diagnostics accumulated after the required-field validation
(provider.go lines 124-132) has run on top of the unknown-value guard. -/
def allDiags (config : hostingdeProviderModel) (env : Env) : List Diagnostic :=
  unknownDiags config ++
    (if resolvedAuthToken config env = "" then [missingAuthTokenDiag] else [])

/-- The record emitted by the initial `tflog.Info` (provider.go line 65). -/
def startLogs : List LogRecord :=
  [{ message := "Configuring hosting.de client", fields := [] }]

/-- The full log trace of a successful invocation: the initial record, the
`Creating` debug record, and the final `Configured` record
(provider.go lines 143, 153), each with the masked field set. -/
def successLogs (accountId baseUrl : String) : List LogRecord :=
  startLogs ++
    [{ message := "Creating hosting.de client", fields := logFields accountId baseUrl },
     { message := "Configured hosting.de client",
       fields := logFields accountId baseUrl ++ [("success", "true")] }]

/-- Translation of `Configure` (provider.go lines 64-154), entered after the configuration
payload has been decoded into `config` without diagnostics. The guard at
line 94 returns before defaulting and required-field validation; the guard
at line 134 returns before client construction. -/
def Configure (config : hostingdeProviderModel) (env : Env) : ConfigureResponse :=
  if hasError (unknownDiags config) then
    { Diagnostics := unknownDiags config, DataSourceData := none, ResourceData := none,
      logs := startLogs }
  else if hasError (allDiags config env) then
    { Diagnostics := allDiags config env, DataSourceData := none, ResourceData := none,
      logs := startLogs }
  else
    { Diagnostics := allDiags config env
      DataSourceData := some (NewClient (resolvedAccountId config env)
        (resolvedAuthToken config env) (finalBaseUrl config env))
      ResourceData := some (NewClient (resolvedAccountId config env)
        (resolvedAuthToken config env) (finalBaseUrl config env))
      logs := successLogs (resolvedAccountId config env) (finalBaseUrl config env) }

/-- Tags for the resource constructors the provider publishes; the
constructors themselves live in the resource source files. -/
inductive ResourceCtor where
  | NewZoneResource : ResourceCtor
  | NewRecordResource : ResourceCtor
  deriving DecidableEq

/-- Tags for data-source constructors; the provider publishes none, so the
type is uninhabited. -/
inductive DataSourceCtor : Type

/-- Translation of `DataSources` (provider.go lines 157-159): returns nil. -/
def DataSources : List DataSourceCtor := []

/-- Translation of `Resources` (provider.go lines 162-167). -/
def Resources : List ResourceCtor :=
  [ResourceCtor.NewZoneResource, ResourceCtor.NewRecordResource]


set_option maxRecDepth 100000
set_option linter.unusedTactic false
set_option linter.unreachableTactic false
set_option linter.unusedVariables false

lemma hasError_append (a b : List Diagnostic) :
    hasError (a ++ b) = (hasError a || hasError b) :=
  List.any_append

lemma accountIdUnknownDiag_severity : accountIdUnknownDiag.severity = Severity.error := rfl

lemma authTokenUnknownDiag_severity : authTokenUnknownDiag.severity = Severity.error := rfl

lemma missingAuthTokenDiag_severity : missingAuthTokenDiag.severity = Severity.error := rfl

lemma hasError_unknownDiags (c : hostingdeProviderModel) :
    hasError (unknownDiags c) = (c.AccountId.isUnknown || c.AuthToken.isUnknown) := by
  unfold unknownDiags
  cases hA : c.AccountId.isUnknown <;> cases hT : c.AuthToken.isUnknown <;>
    simp [hasError, accountIdUnknownDiag, authTokenUnknownDiag]

lemma hasError_allDiags (c : hostingdeProviderModel) (env : Env) :
    hasError (allDiags c env) =
      (c.AccountId.isUnknown || c.AuthToken.isUnknown ||
        decide (resolvedAuthToken c env = "")) := by
  unfold allDiags
  rw [hasError_append, hasError_unknownDiags]
  by_cases h : resolvedAuthToken c env = "" <;>
    simp [h, hasError, missingAuthTokenDiag]

lemma mem_unknownDiags (c : hostingdeProviderModel) (d : Diagnostic)
    (h : d ∈ unknownDiags c) :
    d = accountIdUnknownDiag ∨ d = authTokenUnknownDiag := by
  unfold unknownDiags at h
  split_ifs at h <;> simp_all

lemma mem_allDiags (c : hostingdeProviderModel) (env : Env) (d : Diagnostic)
    (h : d ∈ allDiags c env) :
    d = accountIdUnknownDiag ∨ d = authTokenUnknownDiag ∨ d = missingAuthTokenDiag := by
  unfold allDiags at h
  rw [List.mem_append] at h
  rcases h with h | h
  · rcases mem_unknownDiags c d h with h | h <;> tauto
  · split_ifs at h <;> simp_all


lemma missing_ne_accountUnknown : missingAuthTokenDiag ≠ accountIdUnknownDiag := by decide

lemma missing_ne_authUnknown : missingAuthTokenDiag ≠ authTokenUnknownDiag := by decide

lemma account_mem_unknownDiags (c : hostingdeProviderModel)
    (h : c.AccountId.isUnknown = true) : accountIdUnknownDiag ∈ unknownDiags c := by
  unfold unknownDiags
  simp [h]

lemma auth_mem_unknownDiags (c : hostingdeProviderModel)
    (h : c.AuthToken.isUnknown = true) : authTokenUnknownDiag ∈ unknownDiags c := by
  unfold unknownDiags
  simp [h]

lemma configure_diag_paths (c : hostingdeProviderModel) (env : Env) (d : Diagnostic)
    (h : d ∈ (Configure c env).Diagnostics) :
    d.path = "account_id" ∨ d.path = "auth_token" := by
  unfold Configure at h
  split_ifs at h
  · rcases mem_unknownDiags c d h with h | h <;> subst h <;> simp [accountIdUnknownDiag, authTokenUnknownDiag]
  · rcases mem_allDiags c env d h with h | h | h <;> subst h <;>
      simp [accountIdUnknownDiag, authTokenUnknownDiag, missingAuthTokenDiag]
  · rcases mem_allDiags c env d h with h | h | h <;> subst h <;>
      simp [accountIdUnknownDiag, authTokenUnknownDiag, missingAuthTokenDiag]

@[simp] lemma isNull_null : TFString.isNull TFString.null = true := rfl

@[simp] lemma isNull_unknown : TFString.isNull TFString.unknown = false := rfl

@[simp] lemma isNull_known (s : String) : TFString.isNull (TFString.known s) = false := rfl

@[simp] lemma isUnknown_null : TFString.isUnknown TFString.null = false := rfl

@[simp] lemma isUnknown_unknown : TFString.isUnknown TFString.unknown = true := rfl

@[simp] lemma isUnknown_known (s : String) : TFString.isUnknown (TFString.known s) = false := rfl

@[simp] lemma valueString_null : TFString.valueString TFString.null = "" := rfl

@[simp] lemma valueString_unknown : TFString.valueString TFString.unknown = "" := rfl

@[simp] lemma valueString_known (s : String) : TFString.valueString (TFString.known s) = s := rfl

lemma masked_in_logFields (a b : String) (kv : String × String)
    (h : kv ∈ logFields a b) (hk : kv.1 = "hostingde_auth_token") :
    kv.2 = maskedValue := by
  unfold logFields at h
  simp at h
  rcases h with h | h | h <;> subst h <;> simp_all

lemma logs_shape (c : hostingdeProviderModel) (env : Env) :
    (Configure c env).logs = startLogs ∨
    (Configure c env).logs = successLogs (resolvedAccountId c env) (finalBaseUrl c env) := by
  unfold Configure
  split_ifs <;> simp

/-- Claim C1: for every field (account id, auth token, base URL), a
configuration value that is present (not null) determines the resolved
value of that field, regardless of the environment; moreover any client
that `Configure` publishes carries exactly the resolved values. -/
theorem claim1_config_overrides_env (c : hostingdeProviderModel) (env : Env) :
    (c.AccountId.isNull = false → resolvedAccountId c env = c.AccountId.valueString) ∧
    (c.AuthToken.isNull = false → resolvedAuthToken c env = c.AuthToken.valueString) ∧
    (c.BaseUrl.isNull = false → resolvedBaseUrl c env = c.BaseUrl.valueString) ∧
    (∀ cl, (Configure c env).ResourceData = some cl →
      cl.accountId = resolvedAccountId c env ∧
      cl.authToken = resolvedAuthToken c env ∧
      cl.baseUrl = finalBaseUrl c env) := by
  refine ⟨?_, ?_, ?_, ?_⟩
  · intro h; simp [resolvedAccountId, h]
  · intro h; simp [resolvedAuthToken, h]
  · intro h; simp [resolvedBaseUrl, h]
  · intro cl h
    unfold Configure at h
    split_ifs at h
    first
      | exact Option.noConfusion h
      | (injection h with h; subst h; exact ⟨rfl, rfl, rfl⟩)

/-- Witness for C1 at a concrete input: all three fields known, environment
set to different values; the configuration values win. -/
theorem claim1_config_overrides_env_witness :
    resolvedAccountId ⟨.known "acc", .known "tok", .known "https://x"⟩ ⟨"ea", "et", "eb"⟩ = "acc" ∧
    resolvedAuthToken ⟨.known "acc", .known "tok", .known "https://x"⟩ ⟨"ea", "et", "eb"⟩ = "tok" ∧
    resolvedBaseUrl ⟨.known "acc", .known "tok", .known "https://x"⟩ ⟨"ea", "et", "eb"⟩ = "https://x" :=
  ⟨(claim1_config_overrides_env ⟨.known "acc", .known "tok", .known "https://x"⟩ ⟨"ea", "et", "eb"⟩).1 rfl,
   (claim1_config_overrides_env ⟨.known "acc", .known "tok", .known "https://x"⟩ ⟨"ea", "et", "eb"⟩).2.1 rfl,
   (claim1_config_overrides_env ⟨.known "acc", .known "tok", .known "https://x"⟩ ⟨"ea", "et", "eb"⟩).2.2.1 rfl⟩


/-- Counterexample to claim C2 as stated: with `HOSTINGDE_AUTH_TOKEN` set to
a non-empty value, a present-but-empty configured auth token fails while an
absent one succeeds, so the two are not treated identically for every state
of the environment variable. -/
theorem claim2_counterexample :
    (Configure ⟨.null, .known "", .null⟩ ⟨"", "tok2", ""⟩).ResourceData = none ∧
    (Configure ⟨.null, .null, .null⟩ ⟨"", "tok2", ""⟩).ResourceData
      = some (NewClient "" "tok2" defaultBaseURL) := by
  constructor <;> decide

/-- Claim C2 amended: a present-but-empty configured auth token always fails
(no client, and the missing-credential diagnostic is reported whenever the
unknown-value guard passes); it produces the same outcome as an absent
token exactly when the environment token is also empty. -/
theorem claim2_empty_token_amended (c : hostingdeProviderModel) (env : Env)
    (h : c.AuthToken = TFString.known "") :
    (Configure c env).ResourceData = none ∧
    (c.AccountId.isUnknown = false →
      missingAuthTokenDiag ∈ (Configure c env).Diagnostics) ∧
    (env.authToken = "" →
      Configure c env = Configure { c with AuthToken := TFString.null } env) := by
  obtain ⟨a, t, b⟩ := c
  replace h : t = TFString.known "" := h
  subst h
  have htok : resolvedAuthToken ⟨a, TFString.known "", b⟩ env = "" := rfl
  refine ⟨?_, ?_, ?_⟩
  · unfold Configure
    split_ifs with h1 h2
    · rfl
    · rfl
    · exfalso
      rw [hasError_allDiags, htok] at h2
      simp at h2
  · intro ha
    replace ha : a.isUnknown = false := ha
    have h1 : ¬ hasError (unknownDiags ⟨a, TFString.known "", b⟩) = true := by
      rw [hasError_unknownDiags]
      simp [ha]
    have h2 : hasError (allDiags ⟨a, TFString.known "", b⟩ env) = true := by
      rw [hasError_allDiags, htok]
      simp
    unfold Configure
    rw [if_neg h1, if_pos h2]
    show missingAuthTokenDiag ∈ allDiags ⟨a, TFString.known "", b⟩ env
    unfold allDiags
    rw [htok]
    simp
  · intro he
    have hud : unknownDiags ⟨a, TFString.known "", b⟩
        = unknownDiags ⟨a, TFString.null, b⟩ := by
      unfold unknownDiags
      simp
    have hall : allDiags ⟨a, TFString.known "", b⟩ env
        = allDiags ⟨a, TFString.null, b⟩ env := by
      unfold allDiags resolvedAuthToken
      simp [he, hud]
    have hacc : resolvedAccountId ⟨a, TFString.known "", b⟩ env
        = resolvedAccountId ⟨a, TFString.null, b⟩ env := rfl
    have hfin : finalBaseUrl ⟨a, TFString.known "", b⟩ env
        = finalBaseUrl ⟨a, TFString.null, b⟩ env := rfl
    have htok2 : resolvedAuthToken ⟨a, TFString.known "", b⟩ env
        = resolvedAuthToken ⟨a, TFString.null, b⟩ env := by
      unfold resolvedAuthToken
      simp [TFString.isNull, TFString.valueString, he]
    unfold Configure
    simp only [hud, hall, hacc, hfin, htok2]

/-- Counterexample to claim C3 as stated: with the account id unknown and
the auth token missing from both configuration and environment, the
diagnostics of the invocation contain the unknown-value error but not the
missing-required-value error, because the unknown-value guard returns
before required-field validation runs. -/
theorem claim3_counterexample :
    resolvedAuthToken ⟨.unknown, .null, .null⟩ ⟨"", "", ""⟩ = "" ∧
    accountIdUnknownDiag ∈ (Configure ⟨.unknown, .null, .null⟩ ⟨"", "", ""⟩).Diagnostics ∧
    missingAuthTokenDiag ∉ (Configure ⟨.unknown, .null, .null⟩ ⟨"", "", ""⟩).Diagnostics := by
  refine ⟨rfl, ?_, ?_⟩ <;> decide

/-- Claim C3 amended: the two unknown-value failures are collected and
reported together in one invocation, but the unknown-value guard
short-circuits before required-field validation, so whenever the account id
is unknown the missing-required-value error is absent from the diagnostics
and no client handle is produced. -/
theorem claim3_accumulation_amended (c : hostingdeProviderModel) (env : Env)
    (h : c.AccountId.isUnknown = true) :
    (c.AuthToken.isUnknown = true →
      accountIdUnknownDiag ∈ (Configure c env).Diagnostics ∧
      authTokenUnknownDiag ∈ (Configure c env).Diagnostics) ∧
    missingAuthTokenDiag ∉ (Configure c env).Diagnostics ∧
    (Configure c env).ResourceData = none := by
  have hE : hasError (unknownDiags c) = true := by
    rw [hasError_unknownDiags]
    simp [h]
  have hconf : Configure c env =
      { Diagnostics := unknownDiags c, DataSourceData := none, ResourceData := none,
        logs := startLogs } := by
    unfold Configure
    rw [if_pos hE]
  rw [hconf]
  refine ⟨?_, ?_, rfl⟩
  · intro ht
    exact ⟨account_mem_unknownDiags c h, auth_mem_unknownDiags c ht⟩
  · intro hmem
    rcases mem_unknownDiags c missingAuthTokenDiag hmem with h | h
    · exact missing_ne_accountUnknown h
    · exact missing_ne_authUnknown h

/-- Claim C4: whenever `Configure` publishes a client handle, the client
carries a non-empty auth token and a non-empty base URL. -/
theorem claim4_success_invariant (c : hostingdeProviderModel) (env : Env) (cl : Client)
    (h : (Configure c env).ResourceData = some cl) :
    cl.authToken ≠ "" ∧ cl.baseUrl ≠ "" := by
  unfold Configure at h
  split_ifs at h with h1 h2
  all_goals try exact Option.noConfusion h
  injection h with h
  subst h
  constructor
  · show resolvedAuthToken c env ≠ ""
    rw [hasError_allDiags] at h2
    simp at h2
    exact h2.2
  · show finalBaseUrl c env ≠ ""
    unfold finalBaseUrl
    split_ifs with hb
    · decide
    · exact hb

/-- Claim C5: when the base URL is empty or absent in both the declarative
configuration and the environment, the resolved base URL is exactly the
fixed default endpoint, and any published client carries it. -/
theorem claim5_default_base_url (c : hostingdeProviderModel) (env : Env)
    (hb : c.BaseUrl = TFString.null ∨ c.BaseUrl = TFString.known "")
    (he : env.baseUrl = "") :
    finalBaseUrl c env = "https://secure.hosting.de/api/dns/v1/json" ∧
    ∀ cl, (Configure c env).ResourceData = some cl →
      cl.baseUrl = "https://secure.hosting.de/api/dns/v1/json" := by
  have hfb : finalBaseUrl c env = defaultBaseURL := by
    unfold finalBaseUrl resolvedBaseUrl
    rcases hb with hb | hb <;> rw [hb] <;> simp [he]
  refine ⟨hfb, ?_⟩
  intro cl h
  unfold Configure at h
  split_ifs at h
  all_goals try exact Option.noConfusion h
  injection h with h
  subst h
  exact hfb

/-- Claim C6: when the declared account id or auth token is unknown,
resolution reports an unknown-value error scoped to exactly the path of
that attribute and publishes no client handle. -/
theorem claim6_unknown_guard (c : hostingdeProviderModel) (env : Env)
    (h : c.AccountId.isUnknown = true ∨ c.AuthToken.isUnknown = true) :
    (c.AccountId.isUnknown = true →
      accountIdUnknownDiag ∈ (Configure c env).Diagnostics) ∧
    (c.AuthToken.isUnknown = true →
      authTokenUnknownDiag ∈ (Configure c env).Diagnostics) ∧
    accountIdUnknownDiag.path = "account_id" ∧
    authTokenUnknownDiag.path = "auth_token" ∧
    (Configure c env).ResourceData = none ∧
    (Configure c env).DataSourceData = none := by
  have hE : hasError (unknownDiags c) = true := by
    rw [hasError_unknownDiags]
    rcases h with h | h <;> simp [h]
  have hconf : Configure c env =
      { Diagnostics := unknownDiags c, DataSourceData := none, ResourceData := none,
        logs := startLogs } := by
    unfold Configure
    rw [if_pos hE]
  rw [hconf]
  exact ⟨fun ha => account_mem_unknownDiags c ha,
    fun ht => auth_mem_unknownDiags c ht, rfl, rfl, rfl, rfl⟩

/-- Claim C7: whenever the returned diagnostics contain an error-severity
record, both shared-data slots are left unset; a client handle and error
diagnostics are never returned together. -/
theorem claim7_no_client_on_error (c : hostingdeProviderModel) (env : Env)
    (h : hasError (Configure c env).Diagnostics = true) :
    (Configure c env).ResourceData = none ∧
    (Configure c env).DataSourceData = none := by
  unfold Configure at *
  split_ifs at * with h1 h2
  · exact ⟨rfl, rfl⟩
  · exact ⟨rfl, rfl⟩
  · exact absurd h h2

/-- Counterexample to claim C8 as stated: when the configured account id
happens to equal the configured auth token, the account-id log field of a
successful resolution contains the literal auth token value, so not every
log record is free of it (only the auth token field itself is masked). -/
theorem claim8_counterexample :
    (⟨.known "tok1", .known "tok1", .null⟩ : hostingdeProviderModel).AuthToken.valueString
      = "tok1" ∧
    ∃ rec ∈ (Configure ⟨.known "tok1", .known "tok1", .null⟩ ⟨"", "", ""⟩).logs,
      ∃ kv ∈ rec.fields, kv.1 ≠ "hostingde_auth_token" ∧ occursIn "tok1" kv.2 := by
  refine ⟨rfl,
    { message := "Creating hosting.de client", fields := logFields "tok1" defaultBaseURL },
    ?_, ("hostingde_account_id", "tok1"), ?_, ?_, [], [], ?_⟩
  · decide
  · decide
  · decide
  · simp

/-- Claim C8 amended: the auth token field is redacted in every log record
(any field keyed hostingde_auth_token carries the mask, never the token),
and neither the diagnostics nor the log records depend on the value of a
non-empty configured auth token. -/
theorem claim8_redaction (c : hostingdeProviderModel) (env : Env) (t₁ t₂ : String)
    (h₁ : t₁ ≠ "") (h₂ : t₂ ≠ "") :
    (∀ rec ∈ (Configure c env).logs, ∀ kv ∈ rec.fields,
      kv.1 = "hostingde_auth_token" → kv.2 = maskedValue) ∧
    (Configure { c with AuthToken := TFString.known t₁ } env).Diagnostics
      = (Configure { c with AuthToken := TFString.known t₂ } env).Diagnostics ∧
    (Configure { c with AuthToken := TFString.known t₁ } env).logs
      = (Configure { c with AuthToken := TFString.known t₂ } env).logs := by
  obtain ⟨a, t, b⟩ := c
  have hud : unknownDiags ⟨a, TFString.known t₁, b⟩
      = unknownDiags ⟨a, TFString.known t₂, b⟩ := by
    unfold unknownDiags
    simp
  have hall : allDiags ⟨a, TFString.known t₁, b⟩ env
      = allDiags ⟨a, TFString.known t₂, b⟩ env := by
    unfold allDiags resolvedAuthToken
    simp [h₁, h₂, hud]
  have hacc : resolvedAccountId ⟨a, TFString.known t₁, b⟩ env
      = resolvedAccountId ⟨a, TFString.known t₂, b⟩ env := rfl
  have hfin : finalBaseUrl ⟨a, TFString.known t₁, b⟩ env
      = finalBaseUrl ⟨a, TFString.known t₂, b⟩ env := rfl
  refine ⟨?_, ?_⟩
  · intro rec hrec kv hkv hk
    rcases logs_shape ⟨a, t, b⟩ env with hl | hl <;> rw [hl] at hrec
    · unfold startLogs at hrec
      simp at hrec
      subst hrec
      simp at hkv
    · unfold successLogs startLogs at hrec
      simp at hrec
      rcases hrec with hrec | hrec | hrec <;> subst hrec
      · simp at hkv
      · exact masked_in_logFields _ _ kv hkv hk
      · simp only [List.mem_append] at hkv
        rcases hkv with hkv | hkv
        · exact masked_in_logFields _ _ kv hkv hk
        · simp at hkv
          subst hkv
          simp at hk
  · unfold Configure
    simp only [hud, hall, hacc, hfin]
    constructor
    · split_ifs <;> rfl
    · split_ifs <;> rfl

/-- Claim C9: the published capability lists are fixed: no data sources,
and exactly the DNS zone and DNS record resource constructors, in order. -/
theorem claim9_registry :
    DataSources = ([] : List DataSourceCtor) ∧
    Resources = [ResourceCtor.NewZoneResource, ResourceCtor.NewRecordResource] :=
  ⟨rfl, rfl⟩

/-- Claim C10: an unknown declared base URL passes the guard (no diagnostic
is ever scoped to base_url), reads as the empty string in the merge step so
it overrides any environment base URL, and therefore the resolved base URL
is the fixed default endpoint even when the environment variable holds a
non-empty URL; any published client carries the default. -/
theorem claim10_unknown_base_url (c : hostingdeProviderModel) (env : Env)
    (hb : c.BaseUrl = TFString.unknown)
    (ha : c.AccountId.isUnknown = false) (ht : c.AuthToken.isUnknown = false) :
    (∀ d ∈ (Configure c env).Diagnostics, d.path ≠ "base_url") ∧
    resolvedBaseUrl c env = "" ∧
    finalBaseUrl c env = defaultBaseURL ∧
    (∀ cl, (Configure c env).ResourceData = some cl → cl.baseUrl = defaultBaseURL) := by
  have hres : resolvedBaseUrl c env = "" := by
    unfold resolvedBaseUrl
    rw [hb]
    simp
  have hfin : finalBaseUrl c env = defaultBaseURL := by
    unfold finalBaseUrl
    rw [hres]
    simp
  refine ⟨?_, hres, hfin, ?_⟩
  · intro d hd
    rcases configure_diag_paths c env d hd with h | h <;> rw [h] <;> decide
  · intro cl h
    unfold Configure at h
    split_ifs at h
    all_goals try exact Option.noConfusion h
    injection h with h
    subst h
    exact hfin

/-- Witness for C2 amended at a concrete input: configured token known but
empty, environment token non-empty. -/
theorem claim2_empty_token_amended_witness :
    (Configure ⟨.null, .known "", .null⟩ ⟨"", "tok9", ""⟩).ResourceData = none ∧
    missingAuthTokenDiag ∈ (Configure ⟨.null, .known "", .null⟩ ⟨"", "tok9", ""⟩).Diagnostics :=
  ⟨(claim2_empty_token_amended ⟨.null, .known "", .null⟩ ⟨"", "tok9", ""⟩ rfl).1,
   (claim2_empty_token_amended ⟨.null, .known "", .null⟩ ⟨"", "tok9", ""⟩ rfl).2.1 rfl⟩

/-- Witness for C3 amended at a concrete input: both guarded attributes
unknown, empty environment. -/
theorem claim3_accumulation_amended_witness :
    (accountIdUnknownDiag ∈ (Configure ⟨.unknown, .unknown, .null⟩ ⟨"", "", ""⟩).Diagnostics ∧
      authTokenUnknownDiag ∈ (Configure ⟨.unknown, .unknown, .null⟩ ⟨"", "", ""⟩).Diagnostics) ∧
    missingAuthTokenDiag ∉ (Configure ⟨.unknown, .unknown, .null⟩ ⟨"", "", ""⟩).Diagnostics ∧
    (Configure ⟨.unknown, .unknown, .null⟩ ⟨"", "", ""⟩).ResourceData = none :=
  ⟨(claim3_accumulation_amended ⟨.unknown, .unknown, .null⟩ ⟨"", "", ""⟩ rfl).1 rfl,
   (claim3_accumulation_amended ⟨.unknown, .unknown, .null⟩ ⟨"", "", ""⟩ rfl).2.1,
   (claim3_accumulation_amended ⟨.unknown, .unknown, .null⟩ ⟨"", "", ""⟩ rfl).2.2⟩

/-- Witness for C4 at a concrete successful input. -/
theorem claim4_success_invariant_witness :
    (NewClient "" "tok" defaultBaseURL).authToken ≠ "" ∧
    (NewClient "" "tok" defaultBaseURL).baseUrl ≠ "" :=
  claim4_success_invariant ⟨.null, .known "tok", .null⟩ ⟨"", "", ""⟩
    (NewClient "" "tok" defaultBaseURL) (by decide)

/-- Witness for C5 at a concrete input with the base URL absent from both
sources. -/
theorem claim5_default_base_url_witness :
    finalBaseUrl ⟨.known "a", .known "t", .null⟩ ⟨"", "", ""⟩
      = "https://secure.hosting.de/api/dns/v1/json" ∧
    (NewClient "a" "t" defaultBaseURL).baseUrl
      = "https://secure.hosting.de/api/dns/v1/json" :=
  ⟨(claim5_default_base_url ⟨.known "a", .known "t", .null⟩ ⟨"", "", ""⟩ (Or.inl rfl) rfl).1,
   (claim5_default_base_url ⟨.known "a", .known "t", .null⟩ ⟨"", "", ""⟩ (Or.inl rfl) rfl).2
     (NewClient "a" "t" defaultBaseURL) (by decide)⟩

/-- Witness for C6 at a concrete input with both guarded attributes
unknown. -/
theorem claim6_unknown_guard_witness :
    accountIdUnknownDiag ∈ (Configure ⟨.unknown, .unknown, .null⟩ ⟨"", "", ""⟩).Diagnostics ∧
    authTokenUnknownDiag ∈ (Configure ⟨.unknown, .unknown, .null⟩ ⟨"", "", ""⟩).Diagnostics ∧
    accountIdUnknownDiag.path = "account_id" ∧
    authTokenUnknownDiag.path = "auth_token" ∧
    (Configure ⟨.unknown, .unknown, .null⟩ ⟨"", "", ""⟩).ResourceData = none ∧
    (Configure ⟨.unknown, .unknown, .null⟩ ⟨"", "", ""⟩).DataSourceData = none :=
  ⟨(claim6_unknown_guard ⟨.unknown, .unknown, .null⟩ ⟨"", "", ""⟩ (Or.inl rfl)).1 rfl,
   (claim6_unknown_guard ⟨.unknown, .unknown, .null⟩ ⟨"", "", ""⟩ (Or.inl rfl)).2.1 rfl,
   (claim6_unknown_guard ⟨.unknown, .unknown, .null⟩ ⟨"", "", ""⟩ (Or.inl rfl)).2.2.1,
   (claim6_unknown_guard ⟨.unknown, .unknown, .null⟩ ⟨"", "", ""⟩ (Or.inl rfl)).2.2.2.1,
   (claim6_unknown_guard ⟨.unknown, .unknown, .null⟩ ⟨"", "", ""⟩ (Or.inl rfl)).2.2.2.2.1,
   (claim6_unknown_guard ⟨.unknown, .unknown, .null⟩ ⟨"", "", ""⟩ (Or.inl rfl)).2.2.2.2.2⟩

/-- Witness for C7 at a concrete failing input (no credentials at all). -/
theorem claim7_no_client_on_error_witness :
    (Configure ⟨.null, .null, .null⟩ ⟨"", "", ""⟩).ResourceData = none ∧
    (Configure ⟨.null, .null, .null⟩ ⟨"", "", ""⟩).DataSourceData = none :=
  claim7_no_client_on_error ⟨.null, .null, .null⟩ ⟨"", "", ""⟩ (by decide)

/-- Witness for C8 amended at concrete inputs: two resolutions differing
only in the non-empty auth token value leave identical diagnostics and
identical log records. -/
theorem claim8_redaction_witness :
    (Configure ⟨.known "A", .known "x", .null⟩ ⟨"", "", ""⟩).Diagnostics
      = (Configure ⟨.known "A", .known "y", .null⟩ ⟨"", "", ""⟩).Diagnostics ∧
    (Configure ⟨.known "A", .known "x", .null⟩ ⟨"", "", ""⟩).logs
      = (Configure ⟨.known "A", .known "y", .null⟩ ⟨"", "", ""⟩).logs :=
  ⟨(claim8_redaction ⟨.known "A", .known "x", .null⟩ ⟨"", "", ""⟩ "x" "y"
      (by decide) (by decide)).2.1,
   (claim8_redaction ⟨.known "A", .known "x", .null⟩ ⟨"", "", ""⟩ "x" "y"
      (by decide) (by decide)).2.2⟩

/-- Witness for C10 at a concrete input: base URL unknown while the
environment variable holds a non-empty URL. -/
theorem claim10_unknown_base_url_witness :
    resolvedBaseUrl ⟨.null, .known "t", .unknown⟩ ⟨"", "", "http://env.example"⟩ = "" ∧
    finalBaseUrl ⟨.null, .known "t", .unknown⟩ ⟨"", "", "http://env.example"⟩ = defaultBaseURL ∧
    (NewClient "" "t" defaultBaseURL).baseUrl = defaultBaseURL :=
  ⟨(claim10_unknown_base_url ⟨.null, .known "t", .unknown⟩ ⟨"", "", "http://env.example"⟩
      rfl rfl rfl).2.1,
   (claim10_unknown_base_url ⟨.null, .known "t", .unknown⟩ ⟨"", "", "http://env.example"⟩
      rfl rfl rfl).2.2.1,
   (claim10_unknown_base_url ⟨.null, .known "t", .unknown⟩ ⟨"", "", "http://env.example"⟩
      rfl rfl rfl).2.2.2 (NewClient "" "t" defaultBaseURL) (by decide)⟩
end TerraformHostingde
